import Mathlib

/-!
Shallow embedding of the PenTest agent backend (src/config.py and
src/agent_backend.py) and verification of its specification.

Modelling conventions:
* The process environment (os.getenv) is a partial map from variable names to
  strings; a variable set to the empty string is distinct from an unset one.
* The filesystem existence test (Path.exists) is an abstract predicate.
* Python strings are Lean Strings; a Python slice key[:4] keeps the first four
  characters of the character list.
* The Firestore client is an Option: none models an unavailable store.  An
  engagement collection is a map from document names to documents; a document
  is an association list of fields.  SDK exceptions are injected through
  explicit fault parameters; the code under verification catches them all.
* The LangChain orchestrator invocation is an external call; its outcome is an
  Except value: ok carries the output text, error carries the exception text.
-/

namespace Invasion

/-! ## Configuration (src/config.py) -/

/-- The process environment after load_dotenv: os.getenv as a partial map. -/
abbrev Env := String → Option String

/-- ConfigError, raised when required configuration is missing or invalid. -/
inductive ConfigError where
  | mk : String → ConfigError
deriving Repr, DecidableEq

/-- Validated runtime settings (the Settings dataclass). -/
structure Settings where
  openai_api_key : String
  firebase_credentials_path : String
  openai_model : String
  chromadb_persist_dir : String
deriving Repr, DecidableEq

/-- Settings._required: os.getenv followed by a Python truthiness test, so an
unset variable and one set to the empty string both raise ConfigError. -/
def required (env : Env) (name : String) : Except ConfigError String :=
  match env name with
  | some value =>
      if value = "" then
        Except.error (ConfigError.mk ("Missing required environment variable: " ++ name))
      else Except.ok value
  | none => Except.error (ConfigError.mk ("Missing required environment variable: " ++ name))

/-- Settings._optional: os.getenv with a default used only when unset. -/
def optional (env : Env) (name default : String) : String :=
  (env name).getD default

/-- Settings.from_env: validate the two required variables, check that the
credential path exists, and apply defaults for the optional variables. -/
def from_env (fsExists : String → Bool) (env : Env) : Except ConfigError Settings :=
  match required env "OPENAI_API_KEY" with
  | Except.error e => Except.error e
  | Except.ok openai_api_key =>
    match required env "FIREBASE_CREDENTIALS_PATH" with
    | Except.error e => Except.error e
    | Except.ok firebase_credentials_path =>
      if fsExists firebase_credentials_path then
        Except.ok
          { openai_api_key := openai_api_key
            firebase_credentials_path := firebase_credentials_path
            openai_model := optional env "OPENAI_MODEL" "gpt-4"
            chromadb_persist_dir := optional env "CHROMADB_PERSIST_DIR" "./chroma_db" }
      else
        Except.error (ConfigError.mk
          ("FIREBASE_CREDENTIALS_PATH does not exist: " ++ firebase_credentials_path))

/-- Python truthiness of an environment lookup: set and non-empty. -/
def envTruthy (env : Env) (name : String) : Bool :=
  match env name with
  | some v => v ≠ ""
  | none => false

/-- The Python slice s[:n]: the first n characters of the string. -/
def strSlice (s : String) (n : Nat) : String := String.mk (s.data.take n)

/-- Settings.safe_dict: the log-safe view with the API key masked to its first
four characters (empty when the key is empty). -/
def safe_dict (s : Settings) : List (String × String) :=
  [("openai_api_key",
      if s.openai_api_key = "" then "" else strSlice s.openai_api_key 4 ++ "..."),
   ("firebase_credentials_path", s.firebase_credentials_path),
   ("openai_model", s.openai_model),
   ("chromadb_persist_dir", s.chromadb_persist_dir)]

/-! ## Firestore persistence (src/agent_backend.py) -/

/-- One command/response pair as persisted by _save_interaction. -/
structure Interaction where
  timestamp : String
  command : String
  response : String
deriving Repr, DecidableEq

/-- A Firestore field value as this code reads and writes it: a string, or the
interactions list.  A stored interactions field holding anything but a list
makes the Python append raise (the exception is caught). -/
inductive FSValue where
  | str : String → FSValue
  | interList : List Interaction → FSValue
deriving Repr, DecidableEq

/-- A Firestore document: an association list of named fields. -/
abbrev FSDoc := List (String × FSValue)

/-- The engagements collection: document name to document. -/
abbrev Engagements := String → Option FSDoc

/-- data.get of the interactions key followed by list.append: some list when
the field is absent (default []) or holds a list; none when it holds a
non-list value, in which case the append raises and the write is skipped. -/
def getInteractionsField (doc : FSDoc) : Option (List Interaction) :=
  match doc.lookup "interactions" with
  | some (FSValue.interList l) => some l
  | some (FSValue.str _) => none
  | none => some []

/-- The interactions the save step would read for a document name: the stored
list, or [] when the document does not exist. -/
def storedInteractions (eng : Engagements) (nm : String) : Option (List Interaction) :=
  match eng nm with
  | some doc => getInteractionsField doc
  | none => some []

/-- The document written back by _save_interaction: exactly the three fields
engagement_name, interactions, last_updated. -/
def mkDoc (nm : String) (inters : List Interaction) (t : String) : FSDoc :=
  [("engagement_name", FSValue.str nm),
   ("interactions", FSValue.interList inters),
   ("last_updated", FSValue.str t)]

/-- PenTestAgent._save_interaction.  db = none models self.db being None (the
body is skipped); fault = true models a Firestore SDK exception inside the try
block (caught, state unchanged); an ill-typed interactions field makes the
append raise (caught, state unchanged).  t1 stamps the interaction, t2 stamps
last_updated (two datetime.now calls). -/
def save_interaction (db : Option Engagements) (fault : Bool)
    (nm cmd resp t1 t2 : String) : Option Engagements :=
  match db with
  | none => none
  | some eng =>
    if fault then some eng
    else
      match storedInteractions eng nm with
      | none => some eng
      | some inters =>
        some (fun n =>
          if n = nm then
            some (mkDoc nm (inters ++ [{ timestamp := t1, command := cmd, response := resp }]) t2)
          else eng n)

/-- The dictionary returned by handle_command. -/
structure CmdResult where
  success : Bool
  response : Option String
  error : Option String
  engagement : String
  timestamp : String
deriving Repr, DecidableEq

/-- PenTestAgent.handle_command.  orch is the outcome of
agent_executor.invoke plus the output key access: ok carries the output text,
error the exception text.  On success the interaction is saved (through the
exception-swallowing save_interaction) and a success dictionary is returned;
on an exception a failure dictionary is returned and nothing is saved.
t1 and t2 are the save-side timestamps, t3 the timestamp of the result. -/
def handle_command (db : Option Engagements) (saveFault : Bool)
    (orch : Except String String) (command engagement_name : String)
    (t1 t2 t3 : String) : CmdResult × Option Engagements :=
  match orch with
  | Except.ok output =>
      ({ success := true
         response := some output
         error := none
         engagement := engagement_name
         timestamp := t3 },
       save_interaction db saveFault engagement_name command output t1 t2)
  | Except.error e =>
      ({ success := false
         response := none
         error := some ("Error processing command: " ++ e)
         engagement := engagement_name
         timestamp := t3 }, db)

/-- One serialized successful handle_command call: its command, the
orchestrator output, and the three timestamps drawn during the call. -/
structure Step where
  command : String
  output : String
  tInter : String
  tUpdated : String
  tResult : String
deriving Repr, DecidableEq

/-- N successive serialized successful handle_command calls against one
engagement name, with the store available and no Firestore faults. -/
def run_handles (db : Option Engagements) (nm : String) (steps : List Step) :
    Option Engagements :=
  steps.foldl
    (fun d s =>
      (handle_command d false (Except.ok s.output) s.command nm s.tInter s.tUpdated s.tResult).2)
    db

/-! ## Knowledge store and tools (src/agent_backend.py) -/

/-- A document held by the Chroma vector store. -/
structure KDocument where
  text : String
  metadata : Option (List (String × String))
deriving Repr, DecidableEq

/-- Modelled from the spec: Chroma similarity scoring is external SDK code not
in src/; score query text is the similarity of a stored text to the query,
larger meaning more similar.  The top-k selection orders the scored store by
descending similarity and keeps the first k entries. -/
def chroma_top_k (score : String → String → Nat) (store : List KDocument)
    (query : String) (k : Nat) : List (String × Nat) :=
  ((store.map (fun d => (d.text, score query d.text))).mergeSort
      (fun a b => decide (b.2 ≤ a.2))).take k

/-- Modelled from the spec: vector_store.similarity_search returns the texts
of the up to k most similar stored documents, most similar first. -/
def similarity_search (score : String → String → Nat) (store : List KDocument)
    (query : String) (k : Nat) : List String :=
  (chroma_top_k score store query k).map Prod.fst

/-- The knowledge_search tool closure: calls similarity_search with k = 3,
joins the page contents, returns a no-results message on an empty result and
an error message when the call raises.  The similarity argument stands for
self.vector_store.similarity_search, error carrying the exception text. -/
def knowledge_search (similarity : String → Nat → Except String (List String))
    (query : String) : String :=
  match similarity query 3 with
  | Except.ok docs =>
      if docs = [] then "No relevant information found in knowledge base."
      else "Knowledge Base Results:\n" ++ String.intercalate "\n\n" docs
  | Except.error e => "Error searching knowledge base: " ++ e

/-- The vulnerability_scan tool: a static canned-output simulator. -/
def vulnerability_scan (target : String) : String :=
  "\nVulnerability Scan Results for " ++ target ++
  ":\n- Open Ports: 22 (SSH), 80 (HTTP), 443 (HTTPS)\n- Detected Services: OpenSSH 8.2, Apache 2.4.41\n- Potential Vulnerabilities: CVE-2021-3156 (sudo vulnerability)\n- Risk Level: Medium\n"

/-- The get_engagement_context tool closure.  dumps abstracts json.dumps of a
document; fetch is the outcome of the Firestore document get: ok (some data)
when the document exists, ok none when it does not, error on an exception. -/
def get_engagement_context (dumps : FSDoc → String) (db : Option Engagements)
    (fetch : Except String (Option FSDoc)) (engagement_name : String) : String :=
  match db with
  | some _eng =>
    match fetch with
    | Except.ok (some data) => "Engagement Context:\n" ++ dumps data
    | Except.ok none => "No existing data for engagement: " ++ engagement_name
    | Except.error e => "Error retrieving engagement data: " ++ e
  | none => "Firestore not available"

/-- The backend outcomes the tool closures capture. -/
structure ToolCtx where
  similarity : String → Nat → Except String (List String)
  dumps : FSDoc → String
  db : Option Engagements
  fetch : Except String (Option FSDoc)

/-- PenTestAgent._initialize_tools: the knowledge-search tool is registered
only when the vector store initialized; the scanner and the engagement-context
tool are always registered. -/
def toolRegistry (vectorStoreOk : Bool) (ctx : ToolCtx) :
    List (String × (String → String)) :=
  (if vectorStoreOk then [("knowledge_search", knowledge_search ctx.similarity)] else [])
  ++ [("vulnerability_scan", vulnerability_scan),
      ("get_engagement_context",
        get_engagement_context ctx.dumps ctx.db ctx.fetch)]

/-- Modelled from the spec: Chroma add_texts (external SDK code not in src/)
appends each text, paired with its metadata when a metadatas sequence is
given; a metadatas sequence whose length differs from the number of texts
raises. -/
def add_texts (store : List KDocument) (texts : List String)
    (metadatas : Option (List (List (String × String)))) :
    Except String (List KDocument) :=
  match metadatas with
  | none => Except.ok (store ++ texts.map (fun t => { text := t, metadata := none }))
  | some ms =>
      if ms.length = texts.length then
        Except.ok (store ++ (texts.zip ms).map (fun p => { text := p.1, metadata := some p.2 }))
      else Except.error "metadata length does not match document count"

/-- PenTestAgent.add_knowledge.  vector_store = none models self.vector_store
being None (logged, no-op); fault models an SDK exception independent of the
length check (caught and logged, state unchanged); an add_texts error is
likewise caught and logged. -/
def add_knowledge (vector_store : Option (List KDocument)) (fault : Option String)
    (documents : List String)
    (metadatas : Option (List (List (String × String)))) :
    Option (List KDocument) :=
  match vector_store with
  | none => none
  | some store =>
    match fault with
    | some _ => some store
    | none =>
      match add_texts store documents metadatas with
      | Except.ok store2 => some store2
      | Except.error _ => some store

/-! ## Theorems -/

/-- Claim C4: from_env returns a Settings exactly when both required variables
hold a usable (set, non-empty) value and the credential path exists on disk;
on success every field equals the supplied value, with the model name
defaulting to gpt-4 and the storage directory to ./chroma_db; otherwise it
fails with a ConfigError and no Settings is constructed. -/
theorem from_env_contract :
    ∀ (fsExists : String → Bool) (env : Env),
    ((∃ s, from_env fsExists env = Except.ok s) ↔
      (envTruthy env "OPENAI_API_KEY" = true
        ∧ envTruthy env "FIREBASE_CREDENTIALS_PATH" = true
        ∧ fsExists ((env "FIREBASE_CREDENTIALS_PATH").getD "") = true))
    ∧ (∀ s, from_env fsExists env = Except.ok s →
        s.openai_api_key = (env "OPENAI_API_KEY").getD ""
        ∧ s.firebase_credentials_path = (env "FIREBASE_CREDENTIALS_PATH").getD ""
        ∧ s.openai_model = (env "OPENAI_MODEL").getD "gpt-4"
        ∧ s.chromadb_persist_dir = (env "CHROMADB_PERSIST_DIR").getD "./chroma_db") := by
  intro fsExists env
  rcases h1 : env "OPENAI_API_KEY" with _ | v1
  · simp [from_env, required, envTruthy, h1]
  · rcases eq_or_ne v1 "" with hv1 | hv1
    · simp [from_env, required, envTruthy, h1, hv1]
    · rcases h2 : env "FIREBASE_CREDENTIALS_PATH" with _ | v2
      · simp [from_env, required, envTruthy, h1, h2, hv1]
      · rcases eq_or_ne v2 "" with hv2 | hv2
        · simp [from_env, required, envTruthy, h1, h2, hv1, hv2]
        · rcases hfs : fsExists v2 with _ | _
          · simp [from_env, required, envTruthy, h1, h2, hv1, hv2, hfs]
          · have heq : from_env fsExists env = Except.ok
                { openai_api_key := v1
                  firebase_credentials_path := v2
                  openai_model := optional env "OPENAI_MODEL" "gpt-4"
                  chromadb_persist_dir := optional env "CHROMADB_PERSIST_DIR" "./chroma_db" } := by
              simp [from_env, required, h1, h2, hv1, hv2, hfs]
            rw [heq]
            constructor
            · simp [envTruthy, h1, h2, hv1, hv2, hfs]
            · intro s hs
              injection hs with h
              subst h
              simp [optional, h1, h2]

/-- Witness for C4: a concrete environment with both required variables set,
no optional variables, and an always-true existence test. -/
theorem from_env_contract_witness :
    ∃ s : Settings,
      from_env (fun _p => true)
          (fun n => if n = "OPENAI_API_KEY" then some "sk-abc123"
                    else if n = "FIREBASE_CREDENTIALS_PATH" then some "creds.json" else none)
        = Except.ok s
      ∧ s.openai_api_key = "sk-abc123"
      ∧ s.firebase_credentials_path = "creds.json"
      ∧ s.openai_model = "gpt-4"
      ∧ s.chromadb_persist_dir = "./chroma_db" := by
  obtain ⟨s, hs⟩ :=
    (from_env_contract (fun _p => true)
        (fun n => if n = "OPENAI_API_KEY" then some "sk-abc123"
                  else if n = "FIREBASE_CREDENTIALS_PATH" then some "creds.json" else none)).1.mpr
      ⟨by decide, by decide, rfl⟩
  have hf :=
    (from_env_contract (fun _p => true)
        (fun n => if n = "OPENAI_API_KEY" then some "sk-abc123"
                  else if n = "FIREBASE_CREDENTIALS_PATH" then some "creds.json" else none)).2 s hs
  exact ⟨s, hs, hf.1, hf.2.1, hf.2.2.1, hf.2.2.2⟩

/-- Claim C8: safe_dict is a redacted view — two Settings that agree on the
first four characters of the API key and on every other field have identical
safe_dict outputs (so nothing beyond those four characters is recoverable),
while every field other than the key appears in full. -/
theorem safe_dict_masks :
    (∀ s1 s2 : Settings,
      strSlice s1.openai_api_key 4 = strSlice s2.openai_api_key 4 →
      s1.firebase_credentials_path = s2.firebase_credentials_path →
      s1.openai_model = s2.openai_model →
      s1.chromadb_persist_dir = s2.chromadb_persist_dir →
      safe_dict s1 = safe_dict s2)
    ∧ (∀ s : Settings,
        (safe_dict s).lookup "firebase_credentials_path" = some s.firebase_credentials_path
        ∧ (safe_dict s).lookup "openai_model" = some s.openai_model
        ∧ (safe_dict s).lookup "chromadb_persist_dir" = some s.chromadb_persist_dir) := by
  constructor
  · intro s1 s2 hk hp hm hd
    have hempty : s1.openai_api_key = "" ↔ s2.openai_api_key = "" := by
      constructor <;> intro h
      · have : strSlice s2.openai_api_key 4 = "" := by rw [← hk, h]; rfl
        have hdata : s2.openai_api_key.data.take 4 = [] := congrArg String.data this
        rcases List.take_eq_nil_iff.mp hdata with h4 | hnil
        · exact absurd h4 (by omega)
        · exact String.ext hnil
      · have : strSlice s1.openai_api_key 4 = "" := by rw [hk, h]; rfl
        have hdata : s1.openai_api_key.data.take 4 = [] := congrArg String.data this
        rcases List.take_eq_nil_iff.mp hdata with h4 | hnil
        · exact absurd h4 (by omega)
        · exact String.ext hnil
    have hmask :
        (if s1.openai_api_key = "" then "" else strSlice s1.openai_api_key 4 ++ "...") =
        (if s2.openai_api_key = "" then "" else strSlice s2.openai_api_key 4 ++ "...") := by
      rcases eq_or_ne s1.openai_api_key "" with h | h
      · rw [if_pos h, if_pos (hempty.mp h)]
      · rw [if_neg h, if_neg (fun hc => h (hempty.mpr hc)), hk]
    simp [safe_dict, hp, hm, hd, hmask]
  · intro s
    refine ⟨rfl, rfl, rfl⟩

/-- Witness for C8: two concrete Settings whose API keys differ only beyond
the fourth character produce the same safe_dict output. -/
theorem safe_dict_masks_witness :
    safe_dict { openai_api_key := "sk-abcdef", firebase_credentials_path := "creds.json",
                openai_model := "gpt-4", chromadb_persist_dir := "./chroma_db" }
      = safe_dict { openai_api_key := "sk-aZZZZZZ", firebase_credentials_path := "creds.json",
                    openai_model := "gpt-4", chromadb_persist_dir := "./chroma_db" } :=
  safe_dict_masks.1 _ _ (by decide) rfl rfl rfl

/-- Claim C9: a required environment variable set to the empty string is
rejected exactly like an unset one — an empty OPENAI_API_KEY produces the same
Missing-required-variable ConfigError as an absent one, and an empty
FIREBASE_CREDENTIALS_PATH also prevents construction. -/
theorem required_empty_like_missing :
    (∀ (fsExists : String → Bool) (env : Env), env "OPENAI_API_KEY" = some "" →
      from_env fsExists env =
        Except.error (ConfigError.mk "Missing required environment variable: OPENAI_API_KEY"))
    ∧ (∀ (fsExists : String → Bool) (env : Env), env "OPENAI_API_KEY" = none →
      from_env fsExists env =
        Except.error (ConfigError.mk "Missing required environment variable: OPENAI_API_KEY"))
    ∧ (∀ (fsExists : String → Bool) (env : Env) (s : Settings),
        env "FIREBASE_CREDENTIALS_PATH" = some "" →
        from_env fsExists env ≠ Except.ok s) := by
  refine ⟨?_, ?_, ?_⟩
  · intro fsExists env h
    simp [from_env, required, h]
  · intro fsExists env h
    simp [from_env, required, h]
  · intro fsExists env s h
    rcases h1 : env "OPENAI_API_KEY" with _ | v1
    · simp [from_env, required, h1]
    · rcases eq_or_ne v1 "" with hv1 | hv1
      · simp [from_env, required, h1, hv1]
      · simp [from_env, required, h1, hv1, h]

/-- Witness for C9: a concrete environment whose OPENAI_API_KEY is set to the
empty string is rejected with the Missing-required-variable error. -/
theorem required_empty_like_missing_witness :
    from_env (fun _p => true) (fun n => if n = "OPENAI_API_KEY" then some "" else none)
      = Except.error (ConfigError.mk "Missing required environment variable: OPENAI_API_KEY") :=
  required_empty_like_missing.1 (fun _p => true)
    (fun n => if n = "OPENAI_API_KEY" then some "" else none) (by decide)

/-- Reading back the document written by the save step yields exactly the
interactions that were written. -/
lemma getInteractionsField_mkDoc (nm : String) (l : List Interaction) (t : String) :
    getInteractionsField (mkDoc nm l t) = some l := rfl

/-- storedInteractions after a pointwise update at the saved name. -/
lemma storedInteractions_update (eng : Engagements) (nm : String)
    (inters : List Interaction) (t : String) :
    storedInteractions
        (fun n => if n = nm then some (mkDoc nm inters t) else eng n) nm
      = some inters := by
  simp [storedInteractions, getInteractionsField_mkDoc]

/-- The successful save path: store available, no fault, readable interactions
field — the store is updated pointwise at the saved name. -/
lemma save_interaction_ok (eng : Engagements) (nm cmd resp t1 t2 : String)
    (old : List Interaction) (h : storedInteractions eng nm = some old) :
    save_interaction (some eng) false nm cmd resp t1 t2 =
      some (fun n =>
        if n = nm then
          some (mkDoc nm (old ++ [{ timestamp := t1, command := cmd, response := resp }]) t2)
        else eng n) := by
  simp [save_interaction, h]

/-- Iterating serialized successful handle calls accumulates the interactions
in call order and leaves every other document untouched. -/
lemma run_handles_spec (nm : String) (steps : List Step) :
    ∀ (eng : Engagements) (old : List Interaction),
      storedInteractions eng nm = some old →
      ∃ eng2, run_handles (some eng) nm steps = some eng2
        ∧ storedInteractions eng2 nm =
            some (old ++ steps.map
              (fun s => { timestamp := s.tInter, command := s.command, response := s.output }))
        ∧ ∀ n, n ≠ nm → eng2 n = eng n := by
  induction steps with
  | nil =>
    intro eng old h
    exact ⟨eng, rfl, by simpa using h, fun n _ => rfl⟩
  | cons s rest ih =>
    intro eng old h
    have hstep : run_handles (some eng) nm (s :: rest) =
        run_handles
          (save_interaction (some eng) false nm s.command s.output s.tInter s.tUpdated)
          nm rest := rfl
    have hsave := save_interaction_ok eng nm s.command s.output s.tInter s.tUpdated old h
    obtain ⟨eng2, hrun, hstored, hframe⟩ :=
      ih (fun n =>
            if n = nm then
              some (mkDoc nm
                (old ++ [{ timestamp := s.tInter, command := s.command, response := s.output }])
                s.tUpdated)
            else eng n)
        (old ++ [{ timestamp := s.tInter, command := s.command, response := s.output }])
        (storedInteractions_update eng nm _ s.tUpdated)
    refine ⟨eng2, ?_, ?_, ?_⟩
    · rw [hstep, hsave]
      exact hrun
    · rw [hstored]
      simp
    · intro n hn
      rw [hframe n hn, if_neg hn]

/-- Claim C1 counterexample: a successful handle_command need not append
anything — with the engagement store object present but the Firestore write
raising (fault), the call still returns success = true while the store is left
exactly as it was, so zero Interactions were appended. -/
theorem handle_success_no_persist :
    (handle_command (some fun _n => none) true (Except.ok "done") "scan the host"
        "eng1" "t1" "t2" "t3").1.success = true
    ∧ (handle_command (some fun _n => none) true (Except.ok "done") "scan the host"
        "eng1" "t1" "t2" "t3").2 = some fun _n => none :=
  ⟨rfl, rfl⟩

/-- Claim C1 (amended): when a handle_command call returns success = true and
the engagement store is available and the persistence write succeeds, exactly
one new Interaction has been appended to exactly one EngagementRecord, the one
keyed by the supplied engagement name; a call that returns success = false
appends zero Interactions and leaves the store untouched. -/
theorem handle_success_appends_one :
    (∀ (eng : Engagements) (cmd out nm t1 t2 t3 : String) (old : List Interaction),
      storedInteractions eng nm = some old →
      (handle_command (some eng) false (Except.ok out) cmd nm t1 t2 t3).1.success = true
      ∧ ∃ eng2,
          (handle_command (some eng) false (Except.ok out) cmd nm t1 t2 t3).2 = some eng2
          ∧ storedInteractions eng2 nm =
              some (old ++ [{ timestamp := t1, command := cmd, response := out }])
          ∧ ∀ n, n ≠ nm → eng2 n = eng n)
    ∧ (∀ (db : Option Engagements) (fault : Bool) (e cmd nm t1 t2 t3 : String),
        (handle_command db fault (Except.error e) cmd nm t1 t2 t3).1.success = false
        ∧ (handle_command db fault (Except.error e) cmd nm t1 t2 t3).2 = db) := by
  constructor
  · intro eng cmd out nm t1 t2 t3 old h
    refine ⟨rfl, ⟨_, ?_, storedInteractions_update eng nm _ t2, fun n hn => if_neg hn⟩⟩
    exact save_interaction_ok eng nm cmd out t1 t2 old h
  · intro db fault e cmd nm t1 t2 t3
    exact ⟨rfl, rfl⟩

/-- Witness for the amended C1: one successful call against an empty store
leaves exactly the one new Interaction under the supplied name. -/
theorem handle_success_appends_one_witness :
    ∃ eng2,
      (handle_command (some fun _n => none) false (Except.ok "ok") "c" "e"
          "t1" "t2" "t3").2 = some eng2
      ∧ storedInteractions eng2 "e" =
          some [{ timestamp := "t1", command := "c", response := "ok" }] := by
  obtain ⟨hsucc, eng2, h1, h2, h3⟩ :=
    handle_success_appends_one.1 (fun _n => none) "c" "ok" "e" "t1" "t2" "t3" [] rfl
  exact ⟨eng2, h1, by simpa using h2⟩

/-- Claim C2: handle_command never propagates an exception — an orchestrator
exception yields the failure dictionary carrying the error message, the
supplied engagement name and a timestamp, with the store untouched; an
orchestrator success yields the success dictionary carrying the output, the
supplied engagement name and a timestamp, whatever the persistence step does
(the result does not depend on the save fault or on store availability). -/
theorem handle_failure_boundary :
    (∀ (db : Option Engagements) (fault : Bool) (e cmd nm t1 t2 t3 : String),
      handle_command db fault (Except.error e) cmd nm t1 t2 t3 =
        ({ success := false, response := none,
           error := some ("Error processing command: " ++ e),
           engagement := nm, timestamp := t3 }, db))
    ∧ (∀ (db : Option Engagements) (fault : Bool) (out cmd nm t1 t2 t3 : String),
        (handle_command db fault (Except.ok out) cmd nm t1 t2 t3).1 =
          { success := true, response := some out, error := none,
            engagement := nm, timestamp := t3 }) :=
  ⟨fun _ _ _ _ _ _ _ _ => rfl, fun _ _ _ _ _ _ _ _ => rfl⟩

/-- Claim C3: the save step is read-modify-write — when the store is available
and the write succeeds, the record under the engagement name holds all
previously stored Interactions in order followed by the new one, with the
last-updated timestamp rewritten and every other record untouched; the first
append for a never-seen name creates a record with exactly one Interaction;
and N serialized successful handle calls against one name yield exactly its N
Interactions in call order. -/
theorem append_read_modify_write :
    (∀ (eng : Engagements) (nm cmd resp t1 t2 : String) (old : List Interaction),
      storedInteractions eng nm = some old →
      ∃ eng2, save_interaction (some eng) false nm cmd resp t1 t2 = some eng2
        ∧ eng2 nm = some (mkDoc nm
            (old ++ [{ timestamp := t1, command := cmd, response := resp }]) t2)
        ∧ ∀ n, n ≠ nm → eng2 n = eng n)
    ∧ (∀ (eng : Engagements) (nm cmd resp t1 t2 : String), eng nm = none →
      ∃ eng2, save_interaction (some eng) false nm cmd resp t1 t2 = some eng2
        ∧ storedInteractions eng2 nm =
            some [{ timestamp := t1, command := cmd, response := resp }])
    ∧ (∀ (eng : Engagements) (nm : String) (steps : List Step), eng nm = none →
      ∃ eng2, run_handles (some eng) nm steps = some eng2
        ∧ storedInteractions eng2 nm =
            some (steps.map
              (fun s => { timestamp := s.tInter, command := s.command, response := s.output }))) := by
  refine ⟨?_, ?_, ?_⟩
  · intro eng nm cmd resp t1 t2 old h
    refine ⟨_, save_interaction_ok eng nm cmd resp t1 t2 old h, by simp, fun n hn => if_neg hn⟩
  · intro eng nm cmd resp t1 t2 h
    have h0 : storedInteractions eng nm = some [] := by simp [storedInteractions, h]
    refine ⟨_, save_interaction_ok eng nm cmd resp t1 t2 [] h0, ?_⟩
    simpa using storedInteractions_update eng nm
      [{ timestamp := t1, command := cmd, response := resp }] t2
  · intro eng nm steps h
    have h0 : storedInteractions eng nm = some [] := by simp [storedInteractions, h]
    obtain ⟨eng2, h1, h2, _⟩ := run_handles_spec nm steps eng [] h0
    exact ⟨eng2, h1, by simpa using h2⟩

/-- Witness for C3: two serialized successful handle calls against a fresh
name leave exactly the two Interactions in call order. -/
theorem append_read_modify_write_witness :
    ∃ eng2, run_handles (some fun _n => none) "e"
        [{ command := "c1", output := "o1", tInter := "a1", tUpdated := "b1", tResult := "r1" },
         { command := "c2", output := "o2", tInter := "a2", tUpdated := "b2", tResult := "r2" }]
        = some eng2
      ∧ storedInteractions eng2 "e" =
          some [{ timestamp := "a1", command := "c1", response := "o1" },
                { timestamp := "a2", command := "c2", response := "o2" }] := by
  obtain ⟨eng2, h1, h2⟩ := append_read_modify_write.2.2 (fun _n => none) "e"
    [{ command := "c1", output := "o1", tInter := "a1", tUpdated := "b1", tResult := "r1" },
     { command := "c2", output := "o2", tInter := "a2", tUpdated := "b2", tResult := "r2" }] rfl
  exact ⟨eng2, h1, by simpa using h2⟩

/-- Claim C10: a successful save replaces the whole stored document with
exactly the three fields engagement_name, interactions and last_updated —
every other key present in the old document is absent afterwards, while the
old Interactions are preserved inside the new interactions field. -/
theorem write_replaces_document :
    ∀ (eng : Engagements) (nm cmd resp t1 t2 : String) (doc : FSDoc)
      (old : List Interaction),
      eng nm = some doc → getInteractionsField doc = some old →
      ∃ eng2, save_interaction (some eng) false nm cmd resp t1 t2 = some eng2
        ∧ eng2 nm = some (mkDoc nm
            (old ++ [{ timestamp := t1, command := cmd, response := resp }]) t2)
        ∧ (∀ k, k ≠ "engagement_name" → k ≠ "interactions" → k ≠ "last_updated" →
            (mkDoc nm (old ++ [{ timestamp := t1, command := cmd, response := resp }]) t2).lookup k
              = none)
        ∧ (mkDoc nm (old ++ [{ timestamp := t1, command := cmd, response := resp }]) t2).lookup
            "interactions"
            = some (FSValue.interList
                (old ++ [{ timestamp := t1, command := cmd, response := resp }])) := by
  intro eng nm cmd resp t1 t2 doc old hdoc hget
  have h0 : storedInteractions eng nm = some old := by simp [storedInteractions, hdoc, hget]
  refine ⟨_, save_interaction_ok eng nm cmd resp t1 t2 old h0, by simp, ?_, rfl⟩
  intro k hk1 hk2 hk3
  have e1 : (k == ("engagement_name" : String)) = false := beq_eq_false_iff_ne.mpr hk1
  have e2 : (k == ("interactions" : String)) = false := beq_eq_false_iff_ne.mpr hk2
  have e3 : (k == ("last_updated" : String)) = false := beq_eq_false_iff_ne.mpr hk3
  simp [mkDoc, List.lookup, e1, e2, e3]

/-- Witness for C10: an old document carrying an extra owner field loses it in
the rewritten document, while its stored Interaction survives. -/
theorem write_replaces_document_witness :
    ∃ eng2, save_interaction
        (some fun n => if n = "e"
          then some [("engagement_name", FSValue.str "e"),
                     ("interactions", FSValue.interList
                        [{ timestamp := "t0", command := "c0", response := "r0" }]),
                     ("owner", FSValue.str "alice")]
          else none)
        false "e" "c" "r" "t1" "t2" = some eng2
      ∧ eng2 "e" = some (mkDoc "e"
          [{ timestamp := "t0", command := "c0", response := "r0" },
           { timestamp := "t1", command := "c", response := "r" }] "t2")
      ∧ (mkDoc "e"
          [{ timestamp := "t0", command := "c0", response := "r0" },
           { timestamp := "t1", command := "c", response := "r" }] "t2").lookup "owner"
          = none := by
  obtain ⟨eng2, h1, h2, h3, _h4⟩ := write_replaces_document
    (fun n => if n = "e"
      then some [("engagement_name", FSValue.str "e"),
                 ("interactions", FSValue.interList
                    [{ timestamp := "t0", command := "c0", response := "r0" }]),
                 ("owner", FSValue.str "alice")]
      else none)
    "e" "c" "r" "t1" "t2"
    [("engagement_name", FSValue.str "e"),
     ("interactions", FSValue.interList
        [{ timestamp := "t0", command := "c0", response := "r0" }]),
     ("owner", FSValue.str "alice")]
    [{ timestamp := "t0", command := "c0", response := "r0" }]
    (by simp) rfl
  exact ⟨eng2, h1, h2, h3 "owner" (by decide) (by decide) (by decide)⟩

/-- Claim C5: every tool in the registry is a total text-to-text function, so
no invocation propagates an exception; a backend failure inside
knowledge_search or get_engagement_context is converted into the respective
textual error result, and the db-unavailable branch of the context tool also
returns plain text (vulnerability_scan performs no backend call at all). -/
theorem tools_convert_failures :
    (∀ (b : Bool) (ctx : ToolCtx) (name : String) (tool : String → String) (input : String),
      (name, tool) ∈ toolRegistry b ctx → ∃ output : String, tool input = output)
    ∧ (∀ e query : String, knowledge_search (fun _q _k => Except.error e) query
        = "Error searching knowledge base: " ++ e)
    ∧ (∀ (dumps : FSDoc → String) (eng : Engagements) (e nm : String),
        get_engagement_context dumps (some eng) (Except.error e) nm
          = "Error retrieving engagement data: " ++ e)
    ∧ (∀ (dumps : FSDoc → String) (fetch : Except String (Option FSDoc)) (nm : String),
        get_engagement_context dumps none fetch nm = "Firestore not available") :=
  ⟨fun _ _ _ tool input _ => ⟨tool input, rfl⟩,
   fun _ _ => rfl, fun _ _ _ _ => rfl, fun _ _ _ => rfl⟩

/-- Witness for C5: the scanner tool drawn from a concrete full registry
returns a result on a concrete input. -/
theorem tools_convert_failures_witness :
    ∃ output : String, vulnerability_scan "10.0.0.5" = output := by
  refine tools_convert_failures.1 true
    { similarity := fun _q _k => Except.error "down"
      dumps := fun _d => ""
      db := none
      fetch := Except.ok none }
    "vulnerability_scan" vulnerability_scan "10.0.0.5" ?_
  simp [toolRegistry]

/-- Claim C6 counterexample: when the store backend is unavailable (the
similarity call raises), knowledge_search returns a textual error message, not
the no-results message the claim requires. -/
theorem search_unavailable_counterexample :
    knowledge_search (fun _q _k => Except.error "store unavailable") "q"
        = "Error searching knowledge base: store unavailable"
    ∧ knowledge_search (fun _q _k => Except.error "store unavailable") "q"
        ≠ "No relevant information found in knowledge base." :=
  ⟨rfl, by decide⟩

/-- Claim C6 (amended): the search returns at most k stored document texts,
drawn from the store ordered by descending similarity score, and the tool
returns the no-results message when the store holds nothing; a backend
failure instead yields a textual error message (and with a never-initialized
store the search tool is not registered at all). -/
theorem search_top_k_ordered :
    ∀ (score : String → String → Nat) (store : List KDocument) (query : String) (k : Nat),
      (similarity_search score store query k).length ≤ k
      ∧ (chroma_top_k score store query k).Sorted (fun a b => b.2 ≤ a.2)
      ∧ similarity_search score store query k = (chroma_top_k score store query k).map Prod.fst
      ∧ (store = [] →
          knowledge_search (fun q j => Except.ok (similarity_search score store q j)) query
            = "No relevant information found in knowledge base.") := by
  intro score store query k
  refine ⟨?_, ?_, rfl, ?_⟩
  · simp [similarity_search, chroma_top_k]
  · have htrans : ∀ (a b c : String × Nat),
        decide (b.2 ≤ a.2) = true → decide (c.2 ≤ b.2) = true → decide (c.2 ≤ a.2) = true := by
      intro a b c hab hbc
      simp only [decide_eq_true_eq] at hab hbc ⊢
      omega
    have htotal : ∀ (a b : String × Nat),
        (decide (b.2 ≤ a.2) || decide (a.2 ≤ b.2)) = true := by
      intro a b
      simp only [Bool.or_eq_true, decide_eq_true_eq]
      omega
    have hs := List.sorted_mergeSort htrans htotal
      (store.map (fun d => (d.text, score query d.text)))
    exact List.Pairwise.sublist (List.take_sublist _ _)
      (hs.imp (fun h => of_decide_eq_true h))
  · intro h
    subst h
    simp [knowledge_search, similarity_search, chroma_top_k]

/-- Witness for the amended C6: an empty store yields the no-results message
and an empty bounded result. -/
theorem search_top_k_ordered_witness :
    (similarity_search (fun _q _d => 0) [] "q" 3).length ≤ 3
    ∧ knowledge_search (fun q j => Except.ok (similarity_search (fun _q _d => 0) [] q j)) "q"
        = "No relevant information found in knowledge base." := by
  have h := search_top_k_ordered (fun _q _d => 0) [] "q" 3
  exact ⟨h.1, h.2.2.2 rfl⟩

/-- Claim C7: add_knowledge never fails its caller — with no vector store it
is a logged no-op, an SDK exception is caught leaving the store unchanged, and
a metadata sequence whose length differs from the document count is caught the
same way; in every case a well-defined store state is returned. -/
theorem add_knowledge_never_fails :
    (∀ (fault : Option String) (docs : List String)
        (ms : Option (List (List (String × String)))),
      add_knowledge none fault docs ms = none)
    ∧ (∀ (store : List KDocument) (e : String) (docs : List String)
        (ms : Option (List (List (String × String)))),
        add_knowledge (some store) (some e) docs ms = some store)
    ∧ (∀ (store : List KDocument) (docs : List String) (ms : List (List (String × String))),
        ms.length ≠ docs.length →
        add_knowledge (some store) none docs (some ms) = some store) := by
  refine ⟨fun _ _ _ => rfl, fun _ _ _ _ => rfl, ?_⟩
  intro store docs ms h
  simp [add_knowledge, add_texts, h]

/-- Witness for C7: a metadata list shorter than the document list is caught
and the store is unchanged. -/
theorem add_knowledge_never_fails_witness :
    add_knowledge (some []) none ["doc one"] (some []) = some [] :=
  add_knowledge_never_fails.2.2 [] ["doc one"] [] (by decide)

end Invasion
